import Mathlib

/-!
Verification of the task/time tracker (progress tool `progress.py` and time
tool `capture.py`). Pure functions are embedded directly; the curses input
and message display layer is abstracted: user-entered lines become function
arguments, and each `display_message` call site becomes a `Msg` value. Python
integers are `Int`/`Nat`; `time.time()` values and durations are `ℚ`.
File I/O is modelled by `FileState`: the persisted file is either missing,
present but unparseable, or a well-formed list of records.
-/

/-- The word modulus of MD5 arithmetic, 2^32. -/
def M32 : Nat := 4294967296

/-- Left-rotation of a 32-bit word (for `x < M32`, `c ≤ 32`). -/
def rotl32 (x c : Nat) : Nat := ((x <<< c) ||| (x >>> (32 - c))) % M32

/-- The MD5 sine-derived constant table `K[0..63]` (RFC 1321). -/
def md5K : List Nat :=
  [3614090360, 3905402710, 606105819, 3250441966, 4118548399, 1200080426,
   2821735955, 4249261313, 1770035416, 2336552879, 4294925233, 2304563134,
   1804603682, 4254626195, 2792965006, 1236535329, 4129170786, 3225465664,
   643717713, 3921069994, 3593408605, 38016083, 3634488961, 3889429448,
   568446438, 3275163606, 4107603335, 1163531501, 2850285829, 4243563512,
   1735328473, 2368359562, 4294588738, 2272392833, 1839030562, 4259657740,
   2763975236, 1272893353, 4139469664, 3200236656, 681279174, 3936430074,
   3572445317, 76029189, 3654602809, 3873151461, 530742520, 3299628645,
   4096336452, 1126891415, 2878612391, 4237533241, 1700485571, 2399980690,
   4293915773, 2240044497, 1873313359, 4264355552, 2734768916, 1309151649,
   4149444226, 3174756917, 718787259, 3951481745]

/-- The MD5 per-round shift table `s[0..63]` (RFC 1321). -/
def md5S : List Nat :=
  [7, 12, 17, 22, 7, 12, 17, 22, 7, 12, 17, 22, 7, 12, 17, 22,
   5, 9, 14, 20, 5, 9, 14, 20, 5, 9, 14, 20, 5, 9, 14, 20,
   4, 11, 16, 23, 4, 11, 16, 23, 4, 11, 16, 23, 4, 11, 16, 23,
   6, 10, 15, 21, 6, 10, 15, 21, 6, 10, 15, 21, 6, 10, 15, 21]

/-- MD5 round function F (bitwise on 32-bit words). -/
def md5F (b c d : Nat) : Nat := (b &&& c) ||| ((b ^^^ (M32 - 1)) &&& d)

/-- MD5 round function G. -/
def md5G (b c d : Nat) : Nat := (b &&& d) ||| (c &&& (d ^^^ (M32 - 1)))

/-- MD5 round function H. -/
def md5H (b c d : Nat) : Nat := b ^^^ c ^^^ d

/-- MD5 round function I. -/
def md5I (b c d : Nat) : Nat := c ^^^ (b ||| (d ^^^ (M32 - 1)))

/-- The `g`-th little-endian 32-bit word of a 64-byte block. -/
def blockWord (block : List Nat) (g : Nat) : Nat :=
  block.getD (4 * g) 0 + 256 * block.getD (4 * g + 1) 0 +
    65536 * block.getD (4 * g + 2) 0 + 16777216 * block.getD (4 * g + 3) 0

/-- One MD5 round (round index `i ∈ [0, 64)`) on state `(a, b, c, d)`. -/
def md5Round (block : List Nat) (st : Nat × Nat × Nat × Nat) (i : Nat) :
    Nat × Nat × Nat × Nat :=
  let (a, b, c, d) := st
  let fg : Nat × Nat :=
    if i < 16 then (md5F b c d, i)
    else if i < 32 then (md5G b c d, (5 * i + 1) % 16)
    else if i < 48 then (md5H b c d, (3 * i + 5) % 16)
    else (md5I b c d, (7 * i) % 16)
  let f := (fg.1 + a + md5K.getD i 0 + blockWord block fg.2) % M32
  (d, (b + rotl32 f (md5S.getD i 0)) % M32, b, c)

/-- Process one 64-byte block: run the 64 rounds and add into the state. -/
def md5ProcessBlock (st : Nat × Nat × Nat × Nat) (block : List Nat) :
    Nat × Nat × Nat × Nat :=
  let r := (List.range 64).foldl (md5Round block) st
  ((st.1 + r.1) % M32, (st.2.1 + r.2.1) % M32,
   (st.2.2.1 + r.2.2.1) % M32, (st.2.2.2 + r.2.2.2) % M32)

/-- The 8-byte little-endian encoding of `x % 2^64`. -/
def toLE8 (x : Nat) : List Nat :=
  [x % 256, x / 256 % 256, x / 65536 % 256, x / 16777216 % 256,
   x / 4294967296 % 256, x / 1099511627776 % 256,
   x / 281474976710656 % 256, x / 72057594037927936 % 256]

/-- The 4-byte little-endian encoding of a 32-bit word. -/
def toLE4 (x : Nat) : List Nat := [x % 256, x / 256 % 256, x / 65536 % 256, x / 16777216 % 256]

/-- MD5 padding: append `0x80`, zero bytes to 56 mod 64, then the 64-bit
little-endian bit length. -/
def md5Pad (msg : List Nat) : List Nat :=
  msg ++ [128] ++ List.replicate ((119 - msg.length % 64) % 64) 0 ++
    toLE8 (8 * msg.length % 18446744073709551616)

/-- Split a byte list into 64-byte chunks, with the list length as fuel
(each step strictly shortens a non-empty list, so the fuel suffices). -/
def chunks64Go : Nat → List Nat → List (List Nat)
  | 0, _ => []
  | _ + 1, [] => []
  | n + 1, l@(_ :: _) => l.take 64 :: chunks64Go n (l.drop 64)

/-- Split a byte list into 64-byte chunks. -/
def chunks64 (l : List Nat) : List (List Nat) := chunks64Go l.length l

/-- The 16-byte MD5 digest of a byte message. -/
def md5Digest (msg : List Nat) : List Nat :=
  let st := (chunks64 (md5Pad msg)).foldl md5ProcessBlock
    (1732584193, 4023233417, 2562383102, 271733878)
  toLE4 st.1 ++ toLE4 st.2.1 ++ toLE4 st.2.2.1 ++ toLE4 st.2.2.2

/-- Lowercase hex digit for `n < 16`. -/
def hexChar (n : Nat) : Char :=
  if n < 10 then Char.ofNat (48 + n) else Char.ofNat (87 + n)

/-- Two lowercase hex digits of a byte. -/
def byteHex (b : Nat) : List Char := [hexChar (b / 16), hexChar (b % 16)]

/-- Embeds `hashlib.md5(msg).hexdigest()`: the 32-character lowercase hex digest. -/
def md5HexDigest (msg : List Nat) : String := ⟨((md5Digest msg).map byteHex).flatten⟩

/-- Value of one lowercase hex digit character. -/
def hexVal (c : Char) : Nat := if c.toNat < 58 then c.toNat - 48 else c.toNat - 87

/-- Python `int(s, 16)` restricted to lowercase hex strings (the alphabet
`hexdigest` produces). -/
def hexToNat (s : String) : Nat := s.data.foldl (fun a c => 16 * a + hexVal c) 0

/-- UTF-8 encoding of one character (as byte values). -/
def utf8Bytes (c : Char) : List Nat :=
  let n := c.toNat
  if n < 128 then [n]
  else if n < 2048 then [192 + n / 64, 128 + n % 64]
  else if n < 65536 then [224 + n / 4096, 128 + n / 64 % 64, 128 + n % 64]
  else [240 + n / 262144, 128 + n / 4096 % 64, 128 + n / 64 % 64, 128 + n % 64]

/-- Python `s.encode()`: the UTF-8 bytes of a string. -/
def strBytes (s : String) : List Nat := (s.data.map utf8Bytes).flatten

/-- Decimal digit characters of `n`, most significant first; the first
argument is fuel (any value `≥` the digit count, e.g. `n` itself, works). -/
def decChars : Nat → Nat → List Char
  | 0, _ => []
  | fuel + 1, n =>
    if n = 0 then [] else decChars fuel (n / 10) ++ [Char.ofNat (48 + n % 10)]

/-- Decimal rendering of a natural number, as Python `str`/`format` print it. -/
def pyNatRepr (n : Nat) : String := if n = 0 then "0" else ⟨decChars n n⟩

/-- Python `f"{n:06d}"` for `n ≥ 0`: zero-pad to a minimum width of 6. -/
def pyFormat06 (n : Nat) : String :=
  let s := pyNatRepr n
  ⟨List.replicate (6 - s.length) '0' ++ s.data⟩

/-- Embeds `progress.py` lines 78–83: concatenate the three fields, MD5-hash the
UTF-8 bytes, read the hex digest as an integer, reduce mod 1,000,000 and
zero-pad to 6 digits. -/
def generate_task_hash (task_type task_tag task_name : String) : String :=
  let combined_string := task_type ++ task_tag ++ task_name
  let hex_digest := md5HexDigest (strBytes combined_string)
  let numeric_hash := hexToNat hex_digest % 1000000
  pyFormat06 numeric_hash

/-- Python `str.strip()` on the ASCII whitespace characters (the curses input
routine only ever yields characters in the printable ASCII range 32–126). -/
def pyIsSpace (c : Char) : Bool :=
  c = ' ' ∨ c = '\t' ∨ c = '\n' ∨ c = '\r' ∨ c = '\x0b' ∨ c = '\x0c'

/-- Python `s.strip()`: drop whitespace from both ends. -/
def pyStrip (s : String) : String :=
  ⟨((s.data.dropWhile pyIsSpace).reverse.dropWhile pyIsSpace).reverse⟩

/-- Python `s.startswith(pre)`: literal string-prefix test. -/
def pyStartsWith (s pre : String) : Bool := pre.data.isPrefixOf s.data

/-- Decimal rendering of a Python integer (possibly negative). -/
def pyIntRepr (n : Int) : String :=
  if n < 0 then "-" ++ pyNatRepr n.natAbs else pyNatRepr n.toNat

/-- Checks the tail of a Python integer literal after its first digit:
digits, with single underscores allowed only between digits. -/
def pyIntBody : List Char → Bool
  | [] => true
  | '_' :: c :: rest => c.isDigit && pyIntBody rest
  | c :: rest => c.isDigit && pyIntBody rest

/-- Value of a digit string, skipping group underscores. -/
def digitsVal (l : List Char) : Nat :=
  (l.filter (· ≠ '_')).foldl (fun a c => 10 * a + (c.toNat - 48)) 0

/-- Magnitude part of a Python integer literal: a first digit, then
`pyIntBody`. -/
def pyIntNatPart : List Char → Option Nat
  | [] => none
  | c :: rest =>
    if c.isDigit && pyIntBody rest then some (digitsVal (c :: rest)) else none

/-- Python `int(s)`: optional surrounding whitespace, optional sign, decimal
digits with optional single group underscores; anything else raises
`ValueError` (modelled as `none`). -/
def pyParseInt (s : String) : Option Int :=
  match (pyStrip s).data with
  | '+' :: rest => (pyIntNatPart rest).map (fun n => (n : Int))
  | '-' :: rest => (pyIntNatPart rest).map (fun n => -(n : Int))
  | rest => (pyIntNatPart rest).map (fun n => (n : Int))

/-- Round half to even (Python `round` / `format` rounding mode) of an exact
rational to an integer. -/
def pyRoundHalfEven (x : ℚ) : Int :=
  let f := ⌊x⌋
  let r := x - f
  if r < 1 / 2 then f
  else if 1 / 2 < r then f + 1
  else if f % 2 = 0 then f else f + 1

/-- One bisection step towards the binade exponent of a positive rational
`a`: narrows a bracket `(lo, hi)` maintaining `2^lo ≤ a < 2^hi`. -/
def qstep (a : ℚ) (p : ℤ × ℤ) : ℤ × ℤ :=
  if p.2 ≤ p.1 + 1 then p
  else
    let mid := (p.1 + p.2) / 2
    if (2 : ℚ) ^ mid ≤ a then (mid, p.2) else (p.1, mid)

/-- The binade exponent `⌊log2 a⌋` of a positive rational, by 16 bisection
steps on the bracket `[-2200, 2200)` — exact for every magnitude the
program's float pipeline can produce (percentages, track widths and their
products; values below `2^(-2200)` round to zero either way). -/
def qlog2 (a : ℚ) : ℤ :=
  (qstep a (qstep a (qstep a (qstep a (qstep a (qstep a (qstep a (qstep a
    (qstep a (qstep a (qstep a (qstep a (qstep a (qstep a (qstep a (qstep a
      (-2200, 2200))))))))))))))))).1

/-- Round a rational to the nearest IEEE-754 binary64 value (ties to even),
returned as the exact rational it denotes. CPython evaluates `int / int`,
`float * float` and `float / float` as the correctly rounded double of the
exact result, so each float operation of the source is one `roundDouble` of
the exact rational operation. Subnormals round at the fixed spacing
`2^(-1074)`; overflow cannot occur at this file's call sites (all values stay
far below `2^1024`). -/
def roundDouble (x : ℚ) : ℚ :=
  if x = 0 then 0
  else
    let a := |x|
    let e := qlog2 a
    let e' := if e < -1022 then (-1022 : ℤ) else e
    let s := e' - 52
    let m := pyRoundHalfEven (a / (2 : ℚ) ^ s)
    (if x < 0 then -1 else 1) * (m : ℚ) * (2 : ℚ) ^ s

/-- A progress task as persisted by `progress.py` (the dict of
`handle_insert_task`): Python ints are `Int`. -/
structure PTask where
  hash : String
  type : String
  tag : String
  name : String
  total_digit : Int
  current_progress : Int
deriving DecidableEq, Repr

/-- The persisted data file: missing, present but not parseable as YAML, or a
well-formed list of records. -/
inductive FileState (α : Type) where
  | missing
  | malformed
  | wellFormed (records : List α)
deriving DecidableEq, Repr

/-- Embeds `load_tasks` (identical in both tools): missing file ⇒ empty list, YAML
error ⇒ empty list plus a warning message (the `Bool`); otherwise the parsed
records. -/
def load_tasks {α : Type} : FileState α → List α × Bool
  | .missing => ([], false)
  | .malformed => ([], true)
  | .wellFormed rs => (rs, false)

/-- Embeds `save_tasks`: overwrite the file with the given list. -/
def save_tasks {α : Type} (records : List α) : FileState α := .wellFormed records

/-- Embeds `ensure_data_file_exists`: if the file does not exist, create it holding
an empty YAML list; otherwise leave it untouched. -/
def ensure_data_file_exists {α : Type} : FileState α → FileState α
  | .missing => .wellFormed []
  | fs => fs

/-- Embeds `progress.py` `__main__` (lines 340–346) runs `ensure_data_file_exists`
on the data file before entering the command loop. -/
def progress_main_startup (fs : FileState PTask) : FileState PTask :=
  ensure_data_file_exists fs

/-- Result of `find_task_by_hash_prefix`: Python returns `None`, a single
task, or the list of matches. -/
inductive FindResult where
  | notFound
  | unique (t : PTask)
  | ambiguous (ts : List PTask)
deriving DecidableEq, Repr

/-- Embeds `progress.py` lines 152–163: collect the tasks whose hash starts with the
given prefix; one match ⇒ that task, several ⇒ the list, none ⇒ `None`. -/
def find_task_by_hash_prefix (tasks : List PTask) ( hash_prefix : String) : FindResult :=
  let ms := tasks.filter (fun t => pyStartsWith t.hash hash_prefix)
  match ms with
  | [] => .notFound
  | [t] => .unique t
  | _ :: _ :: _ => .ambiguous ms

/-- Embeds `progress.py` lines 259–263 (the mutation step of `handle_add_progress`):
add the delta, then clamp below at 0 and above at `total_digit`. -/
def apply_progress_change (matched_task : PTask) (change_amount : Int) : PTask :=
  let c1 := matched_task.current_progress + change_amount
  let c2 := if c1 < 0 then 0 else c1
  let c3 := if c2 > matched_task.total_digit then matched_task.total_digit else c2
  { matched_task with current_progress := c3 }

/-- The `display_message` call sites of `handle_insert_task`, as values. -/
inductive PMsg where
  | errAllFieldsRequired
  | errTotalNotInteger
  | errTotalNotPositive
  | warnDuplicate (h : String)
  | taskAdded (name h : String)
deriving DecidableEq, Repr

/-- Outcome of `handle_insert_task`: the task list, the file, the message. -/
structure InsertResult where
  tasks : List PTask
  fs : FileState PTask
  msg : PMsg
deriving DecidableEq, Repr

/-- Embeds `progress.py` lines 173–221: read the four fields (stripped), require all
non-empty, parse the total as a positive integer, reject a duplicate hash,
otherwise append the new task with `current_progress = 0` and save. -/
def handle_insert_task (tasks : List PTask) (fs : FileState PTask)
    (type_input tag_input name_input digit_input : String) : InsertResult :=
  let task_type := pyStrip type_input
  let task_tag := pyStrip tag_input
  let task_name := pyStrip name_input
  let task_digit_str := pyStrip digit_input
  if task_type = "" ∨ task_tag = "" ∨ task_name = "" ∨ task_digit_str = "" then
    ⟨tasks, fs, .errAllFieldsRequired⟩
  else
    match pyParseInt task_digit_str with
    | none => ⟨tasks, fs, .errTotalNotInteger⟩
    | some total_digit =>
      if total_digit ≤ 0 then ⟨tasks, fs, .errTotalNotPositive⟩
      else
        let new_hash := generate_task_hash task_type task_tag task_name
        if tasks.any (fun t => t.hash = new_hash) then
          ⟨tasks, fs, .warnDuplicate new_hash⟩
        else
          let new_task : PTask :=
            ⟨new_hash, task_type, task_tag, task_name, total_digit, 0⟩
          ⟨tasks ++ [new_task], save_tasks (tasks ++ [new_task]),
            .taskAdded task_name new_hash⟩

/-- Embeds `progress.py` lines 86–110, `draw_progress_bar`. The `stdscr` parameter is
accepted and ignored exactly as in the source. Python float arithmetic is
modelled operation-by-operation with `roundDouble`: `current / total` is one
correctly rounded division, `* 100` one rounded multiplication (100 converts
exactly), `bar_length` converts to float with one rounding before the
rounded multiplication, and `/ 100` is one rounded division;
`math.floor` takes the exact floor of the resulting double. When
`total == 0`, `percentage` is the int 0 and the chain is exact, as in
Python. -/
def draw_progress_bar {α : Type} (stdscr : α) (current total : Int)
    (display_width : Nat) : String :=
  let percentage : ℚ :=
    if total = 0 then 0
    else roundDouble (roundDouble ((current : ℚ) / (total : ℚ)) * 100)
  let bar_length : Int :=
    if (display_width : Int) - 25 < 10 then 10 else (display_width : Int) - 25
  let filled_length : Int :=
    ⌊roundDouble (roundDouble (roundDouble (bar_length : ℚ) * percentage) / 100)⌋
  let bar1 := List.replicate filled_length.toNat '='
  let bar2 := if filled_length < bar_length then bar1 ++ ['>'] else bar1
  let bar3 := bar2.take bar_length.toNat
  let bar := bar3 ++ List.replicate (bar_length.toNat - bar3.length) '-'
  let progress_text := pyIntRepr current ++ "/" ++ pyIntRepr total ++ " (" ++
    pyIntRepr (pyRoundHalfEven percentage) ++ "%)"
  let display_str := "[" ++ String.mk bar ++ "] " ++ progress_text
  ⟨display_str.data.take display_width⟩

/-- The current task descriptor of the time tool. -/
structure TaskInfo where
  type : String
  tag : String
  name : String
deriving DecidableEq, Repr

/-- Embeds `capture.py` lines 92–94: a descriptor is valid when *any* of its three
fields is a non-empty string (Python truthiness of `a or b or c`). -/
def is_task_info_valid (task_info : TaskInfo) : Bool :=
  !task_info.type.isEmpty || !task_info.tag.isEmpty || !task_info.name.isEmpty

/-- The mutable session state of `capture.py`'s `run_tracker_app`.
Timestamps (`time.time()` results) are modelled as exact rationals. -/
structure CaptureState where
  current_task_info : TaskInfo
  is_stopwatch_running : Bool
  stopwatch_start_time : Option ℚ
  last_saved_duration : Option ℚ
deriving DecidableEq, Repr

/-- The initial state of `run_tracker_app` (lines 290–299). -/
def initial_capture_state : CaptureState :=
  ⟨⟨"", "", ""⟩, false, none, none⟩

/-- A persisted time record (the `task_entry` dict of `capture.py`). The
`start`/`end` ISO strings are abstracted to the timestamp values they render
(epoch seconds for the stopwatch path, proleptic seconds for manual entry);
`duration` is `round(·, 3)` of the elapsed seconds. -/
structure TimeRecord where
  type : String
  tag : String
  name : String
  start : ℚ
  end_ : ℚ
  duration : ℚ
deriving DecidableEq, Repr

/-- Python `round(x, 3)`: round half to even at 3 decimal places. -/
def pyRound3 (x : ℚ) : ℚ := (pyRoundHalfEven (x * 1000) : ℚ) / 1000

/-- The `display_message` call sites of the time tool, as values. -/
inductive Msg where
  | taskInfoEmptyUseI
  | stopwatchStarted
  | stopwatchStopped (name : String)
  | cannotManualWhileRunning
  | cannotInputWhileRunning
  | errTimeFormat
  | errStartNotBeforeEnd
  | manualAdded (name : String)
  | taskInfoUpdated
  | taskFieldsEmptyWarning
  | stopBeforeQuitting
  | goodbye
  | invalidCommand (c : Char)
deriving DecidableEq, Repr

/-- A parsed `datetime.datetime` (second precision, as the two accepted
formats produce). -/
structure PyDateTime where
  year : Nat
  month : Nat
  day : Nat
  hour : Nat
  minute : Nat
  second : Nat
deriving DecidableEq, Repr

/-- Python `datetime` comparison: field-lexicographic `<`. -/
def pyDtLt (a b : PyDateTime) : Bool :=
  if a.year ≠ b.year then a.year < b.year
  else if a.month ≠ b.month then a.month < b.month
  else if a.day ≠ b.day then a.day < b.day
  else if a.hour ≠ b.hour then a.hour < b.hour
  else if a.minute ≠ b.minute then a.minute < b.minute
  else a.second < b.second

/-- Leap year of the proleptic Gregorian calendar. -/
def isLeapYear (y : Nat) : Bool := y % 4 = 0 && (y % 100 ≠ 0 || y % 400 = 0)

/-- Days in a month (proleptic Gregorian, as `datetime` validates). -/
def daysInMonth (y m : Nat) : Nat :=
  if m = 2 then (if isLeapYear y then 29 else 28)
  else if m = 4 ∨ m = 6 ∨ m = 9 ∨ m = 11 then 30
  else 31

/-- Days in the months strictly before month `m` of year `y`. -/
def daysBeforeMonth (y m : Nat) : Nat :=
  (List.range (m - 1)).foldl (fun a i => a + daysInMonth y (i + 1)) 0

/-- Embeds `datetime.date(y, m, d).toordinal()`: proleptic Gregorian day number,
with 0001-01-01 as day 1. -/
def dateOrdinal (y m d : Nat) : Nat :=
  365 * (y - 1) + (y - 1) / 4 - (y - 1) / 100 + (y - 1) / 400 +
    daysBeforeMonth y m + d

/-- Seconds of a datetime on the proleptic Gregorian time line; differences
agree with `(b - a).total_seconds()`. -/
def dtToSecs (t : PyDateTime) : Nat :=
  (dateOrdinal t.year t.month t.day - 1) * 86400 +
    t.hour * 3600 + t.minute * 60 + t.second

/-- Four mandatory digits (`strptime`'s `%Y`). -/
def parse4Digits : List Char → Option (Nat × List Char)
  | a :: b :: c :: d :: rest =>
    if a.isDigit && b.isDigit && c.isDigit && d.isDigit then
      some (digitsVal [a, b, c, d], rest)
    else none
  | _ => none

/-- Embeds `strptime`'s `%m`: regex `1[0-2]|0[1-9]|[1-9]`, two digits preferred. -/
def parseMonthF : List Char → Option (Nat × List Char)
  | a :: b :: rest =>
    if (a = '1' && ('0' ≤ b && b ≤ '2')) || (a = '0' && ('1' ≤ b && b ≤ '9')) then
      some (digitsVal [a, b], rest)
    else if '1' ≤ a && a ≤ '9' then some (digitsVal [a], b :: rest)
    else none
  | [a] => if '1' ≤ a && a ≤ '9' then some (digitsVal [a], []) else none
  | [] => none

/-- Embeds `strptime`'s `%d`: regex `3[01]|[12]\d|0[1-9]|[1-9]| [1-9]`, in
alternation order — the final alternative accepts a space-padded day such as
`" 5"`. -/
def parseDayF : List Char → Option (Nat × List Char)
  | a :: b :: rest =>
    if (a = '3' && (b = '0' || b = '1')) || ((a = '1' || a = '2') && b.isDigit)
        || (a = '0' && ('1' ≤ b && b ≤ '9')) then
      some (digitsVal [a, b], rest)
    else if '1' ≤ a && a ≤ '9' then some (digitsVal [a], b :: rest)
    else if a = ' ' && ('1' ≤ b && b ≤ '9') then some (digitsVal [b], rest)
    else none
  | [a] => if '1' ≤ a && a ≤ '9' then some (digitsVal [a], []) else none
  | [] => none

/-- Embeds `strptime`'s `%H`: regex `2[0-3]|[0-1]\d|\d`. -/
def parseHourF : List Char → Option (Nat × List Char)
  | a :: b :: rest =>
    if (a = '2' && ('0' ≤ b && b ≤ '3')) || ((a = '0' || a = '1') && b.isDigit) then
      some (digitsVal [a, b], rest)
    else if a.isDigit then some (digitsVal [a], b :: rest)
    else none
  | [a] => if a.isDigit then some (digitsVal [a], []) else none
  | [] => none

/-- Embeds `strptime`'s `%M` and `%S`: regex `[0-5]\d|\d`. -/
def parseMinSecF : List Char → Option (Nat × List Char)
  | a :: b :: rest =>
    if ('0' ≤ a && a ≤ '5') && b.isDigit then some (digitsVal [a, b], rest)
    else if a.isDigit then some (digitsVal [a], b :: rest)
    else none
  | [a] => if a.isDigit then some (digitsVal [a], []) else none
  | [] => none

/-- A literal format character. -/
def parseLit (c : Char) : List Char → Option (List Char)
  | x :: rest => if x = c then some rest else none
  | [] => none

/-- A whitespace run (`strptime` compiles format whitespace to `\s+`). -/
def parseWs : List Char → Option (List Char)
  | x :: rest => if pyIsSpace x then some (rest.dropWhile pyIsSpace) else none
  | [] => none

/-- The `datetime` constructor's validation for the fields `strptime`'s
regexes admit: year in `[1, 9999]` and a real day of the month. -/
def mkDateTimeValid (y mo d h mi s : Nat) : Option PyDateTime :=
  if 1 ≤ y ∧ d ≤ daysInMonth y mo then some ⟨y, mo, d, h, mi, s⟩ else none

/-- Embeds `datetime.strptime(·, "%Y-%m-%d %H:%M")`, requiring the whole string to
be consumed (unconverted data raises `ValueError`); seconds default to 0. -/
def strptimeFmt1 (l : List Char) : Option PyDateTime := do
  let (y, r1) ← parse4Digits l
  let r2 ← parseLit '-' r1
  let (mo, r3) ← parseMonthF r2
  let r4 ← parseLit '-' r3
  let (d, r5) ← parseDayF r4
  let r6 ← parseWs r5
  let (h, r7) ← parseHourF r6
  let r8 ← parseLit ':' r7
  let (mi, r9) ← parseMinSecF r8
  if r9 = [] then mkDateTimeValid y mo d h mi 0 else none

/-- Embeds `datetime.strptime(·, "%Y-%m-%d %H:%M:%S")`. -/
def strptimeFmt2 (l : List Char) : Option PyDateTime := do
  let (y, r1) ← parse4Digits l
  let r2 ← parseLit '-' r1
  let (mo, r3) ← parseMonthF r2
  let r4 ← parseLit '-' r3
  let (d, r5) ← parseDayF r4
  let r6 ← parseWs r5
  let (h, r7) ← parseHourF r6
  let r8 ← parseLit ':' r7
  let (mi, r9) ← parseMinSecF r8
  let r10 ← parseLit ':' r9
  let (s, r11) ← parseMinSecF r10
  if r11 = [] then mkDateTimeValid y mo d h mi s else none

/-- Embeds `capture.py` lines 231–245: try the ordered format list
`["%Y-%m-%d %H:%M", "%Y-%m-%d %H:%M:%S"]` on one field, taking the first
format that parses; `None` if every format fails. -/
def parse_manual_timestamp (s : String) : Option PyDateTime :=
  match strptimeFmt1 s.data with
  | some dt => some dt
  | none => strptimeFmt2 s.data

/-- Embeds `capture.py` lines 209–273, `add_manual_entry` with the two prompted
lines as arguments: rejected while the descriptor is invalid or the stopwatch
runs; each timestamp is parsed independently; a parse failure of either field
or `start >= end` is a user error that changes nothing; otherwise one record
is appended to the freshly loaded file and saved. The session state is never
mutated. -/
def add_manual_entry (state : CaptureState) (fs : FileState TimeRecord)
    (start_input end_input : String) : CaptureState × FileState TimeRecord × Msg :=
  if !is_task_info_valid state.current_task_info then
    (state, fs, .taskInfoEmptyUseI)
  else if state.is_stopwatch_running then
    (state, fs, .cannotManualWhileRunning)
  else
    let start_str := pyStrip start_input
    let end_str := pyStrip end_input
    match parse_manual_timestamp start_str, parse_manual_timestamp end_str with
    | some start_dt, some end_dt =>
      if !pyDtLt start_dt end_dt then (state, fs, .errStartNotBeforeEnd)
      else
        let duration : ℚ := ((dtToSecs end_dt : ℤ) - (dtToSecs start_dt : ℤ) : ℤ)
        let task_entry : TimeRecord :=
          ⟨state.current_task_info.type, state.current_task_info.tag,
            state.current_task_info.name, (dtToSecs start_dt : ℚ),
            (dtToSecs end_dt : ℚ), pyRound3 duration⟩
        (state, save_tasks ((load_tasks fs).1 ++ [task_entry]),
          .manualAdded state.current_task_info.name)
    | _, _ => (state, fs, .errTimeFormat)

/-- Embeds `capture.py` lines 171–206, `handle_stopwatch_toggle`. While running:
stop, emit a record appended to the freshly loaded file. While stopped: an
invalid descriptor is an error and changes nothing; otherwise record
`start_time = now` and run. `none` models the `TypeError` Python would raise
if the stopwatch were running with no start time (unreachable in the app). -/
def handle_stopwatch_toggle (state : CaptureState) (now : ℚ)
    (fs : FileState TimeRecord) :
    Option (CaptureState × FileState TimeRecord × Msg) :=
  if state.is_stopwatch_running then
    match state.stopwatch_start_time with
    | none => none
    | some t0 =>
      let end_time := now
      let duration := end_time - t0
      let state' : CaptureState :=
        { state with is_stopwatch_running := false, stopwatch_start_time := none,
                     last_saved_duration := some duration }
      let task_entry : TimeRecord :=
        ⟨state.current_task_info.type, state.current_task_info.tag,
          state.current_task_info.name, end_time - duration, end_time,
          pyRound3 duration⟩
      some (state', save_tasks ((load_tasks fs).1 ++ [task_entry]),
        .stopwatchStopped state.current_task_info.name)
  else
    if !is_task_info_valid state.current_task_info then
      some (state, fs, .taskInfoEmptyUseI)
    else
      some ({ state with stopwatch_start_time := some now,
                         is_stopwatch_running := true }, fs, .stopwatchStarted)

/-- Embeds `capture.py` lines 141–168, `prompt_for_task_details` with the three
prompted lines as arguments: rejected while running; otherwise the stripped
fields replace the descriptor, with a warning when all are empty. -/
def prompt_for_task_details (state : CaptureState)
    (type_input tag_input name_input : String) : CaptureState × Msg :=
  if state.is_stopwatch_running then (state, .cannotInputWhileRunning)
  else
    let info : TaskInfo := ⟨pyStrip type_input, pyStrip tag_input, pyStrip name_input⟩
    ({ state with current_task_info := info },
      if !is_task_info_valid info then .taskFieldsEmptyWarning else .taskInfoUpdated)

/-- One keypress of the command loop, with the data the handler would prompt
for attached (`now` is the `time.time()` value a toggle observes). -/
inductive Key where
  | input (type_input tag_input name_input : String)
  | toggle (now : ℚ)
  | manual (start_input end_input : String)
  | quit
  | other (c : Char)
deriving DecidableEq, Repr

/-- One iteration of `run_tracker_app`'s `while True` loop (`capture.py`
lines 310–341) on a pressed key: the new session state, the new file state,
and whether the loop exits (`break`). `q` while the stopwatch runs only shows
a message and keeps the loop (and all state) as it was. -/
def run_step (state : CaptureState) (fs : FileState TimeRecord) :
    Key → Option (CaptureState × FileState TimeRecord × Bool)
  | .input t g n => some ((prompt_for_task_details state t g n).1, fs, false)
  | .toggle now => (handle_stopwatch_toggle state now fs).map fun r => (r.1, r.2.1, false)
  | .manual a b => let r := add_manual_entry state fs a b; some (r.1, r.2.1, false)
  | .quit =>
    if state.is_stopwatch_running then some (state, fs, false)
    else some (state, fs, true)
  | .other _ => some (state, fs, false)

/-- Iterating `handle_insert_task` over a sequence of input quadruples
(statement harness for the no-duplicate-hash invariant; the file argument
plays no role in the resulting task list). -/
def insert_sequence (tasks : List PTask)
    (inputs : List (String × String × String × String)) : List PTask :=
  inputs.foldl
    (fun acc q => (handle_insert_task acc (save_tasks acc) q.1 q.2.1 q.2.2.1 q.2.2.2).tasks)
    tasks

/-- Modelled from the spec's words (§4.3): `percentage = 0` when `total == 0`,
else `current/total*100`. To be compared with `draw_progress_bar`. -/
def spec_percentage (current total : Int) : ℚ :=
  if total = 0 then 0 else (current : ℚ) / (total : ℚ) * 100

/-- Modelled from the spec's words (§4.3): the bar track is the display width
minus the fixed 25-column footer, floored at 10. -/
def spec_track_width (w : Nat) : Int := max ((w : Int) - 25) 10

/-- Modelled from the spec's words (§4.3):
`filled = floor(track_width * percentage / 100)`. -/
def spec_filled_length (current total : Int) (w : Nat) : Int :=
  ⌊(spec_track_width w : ℚ) * spec_percentage current total / 100⌋

/-- Modelled from the spec's words (§4.3): the bar track characters — the
filled segment, then a single transition marker exactly when the bar is not
full, then the empty-track padding. -/
def spec_bar_track (track filled : Int) : List Char :=
  if filled < track then
    List.replicate filled.toNat '=' ++ '>' :: List.replicate (track - filled - 1).toNat '-'
  else List.replicate track.toNat '='

/-- The percentage as the program's float pipeline computes it: 0 (exact)
when `total = 0`, else the double `fl(fl(current / total) * 100)`. -/
def float_percentage (current total : Int) : ℚ :=
  if total = 0 then 0
  else roundDouble (roundDouble ((current : ℚ) / (total : ℚ)) * 100)

/-- The filled length as the program's float pipeline computes it:
`math.floor(fl(fl(fl(track) * percentage) / 100))`. -/
def float_filled_length (current total : Int) (w : Nat) : Int :=
  ⌊roundDouble (roundDouble (roundDouble ((spec_track_width w : Int) : ℚ) *
    float_percentage current total) / 100)⌋

/-! ## Theorems -/

/-- The function `decChars` prints `n < 10^k` in at most `k` characters. -/
lemma decChars_length_le :
    ∀ (fuel n k : Nat), n < 10 ^ k → (decChars fuel n).length ≤ k := by
  intro fuel
  induction fuel with
  | zero => intro n k _; simp [decChars]
  | succ f ih =>
    intro n k h
    unfold decChars
    split
    · simp
    · rename_i hn
      have hk : k ≠ 0 := by
        rintro rfl
        simp at h
        omega
      obtain ⟨k', rfl⟩ : ∃ k', k = k' + 1 := ⟨k - 1, by omega⟩
      have hdiv : n / 10 < 10 ^ k' := by
        rw [Nat.div_lt_iff_lt_mul (by norm_num)]
        calc n < 10 ^ (k' + 1) := h
        _ = 10 ^ k' * 10 := by ring
      have := ih (n / 10) k' hdiv
      simp [List.length_append]
      omega

/-- A natural below 10^6 prints in at most 6 decimal digits. -/
lemma pyNatRepr_length_le_six {n : Nat} (h : n < 1000000) :
    (pyNatRepr n).length ≤ 6 := by
  unfold pyNatRepr
  split
  · simp [String.length]
  · exact decChars_length_le n n 6 h

/-- Python `f"{n:06d}"` of a natural below 10^6 has exactly 6 characters. -/
lemma pyFormat06_length {n : Nat} (h : n < 1000000) :
    (pyFormat06 n).length = 6 := by
  have h6 := pyNatRepr_length_le_six h
  unfold pyFormat06
  show (List.replicate (6 - (pyNatRepr n).length) '0' ++ (pyNatRepr n).data).length = 6
  rw [List.length_append, List.length_replicate]
  have hd : (pyNatRepr n).length = (pyNatRepr n).data.length := rfl
  omega

/-- C1: `generate_task_hash` is a pure function of the separator-free
concatenation of its three arguments — equal concatenations give equal
hashes — its output is the MD5 hex digest of the concatenation read as an
integer, reduced mod 1,000,000 and zero-padded, and it always has exactly 6
decimal digits. -/
theorem generate_task_hash_spec (t₁ g₁ n₁ t₂ g₂ n₂ : String) :
    (t₁ ++ g₁ ++ n₁ = t₂ ++ g₂ ++ n₂ →
      generate_task_hash t₁ g₁ n₁ = generate_task_hash t₂ g₂ n₂) ∧
    (generate_task_hash t₁ g₁ n₁).length = 6 ∧
    generate_task_hash t₁ g₁ n₁ =
      pyFormat06 (hexToNat (md5HexDigest (strBytes (t₁ ++ g₁ ++ n₁))) % 1000000) := by
  refine ⟨fun h => ?_, ?_, rfl⟩
  · simp only [generate_task_hash]
    rw [h]
  · exact pyFormat06_length (Nat.mod_lt _ (by norm_num))

set_option maxRecDepth 100000 in
/-- C1 witness: `("ab","","cd")` and `("a","b","cd")` concatenate equally and
collide; a concrete hash evaluates to its Python value and 6 digits. -/
theorem generate_task_hash_spec_witness :
    ("ab" ++ "" ++ "cd" : String) = "a" ++ "b" ++ "cd" ∧
    generate_task_hash "ab" "" "cd" = generate_task_hash "a" "b" "cd" ∧
    generate_task_hash "work" "dev" "report" = "519427" :=
  ⟨by decide, (generate_task_hash_spec "ab" "" "cd" "a" "b" "cd").1 (by decide),
    by decide⟩

/-- C2: hash-prefix lookup is three-way: an empty task list gives `NotFound`
for every prefix; a prefix equal to one task's full hash that no other task's
hash extends gives `Unique` of exactly that task; exactly two matching tasks
give `Ambiguous` of exactly those two; the empty prefix matches every task;
and a prefix longer than the 6-character hashes gives `NotFound`. -/
theorem find_task_by_hash_prefix_spec (p : String) (tasks l₁ l₂ : List PTask)
    (t a b : PTask) :
    ( find_task_by_hash_prefix [] p = .notFound) ∧
    (tasks = l₁ ++ t :: l₂ → p = t.hash →
      (∀ u ∈ l₁ ++ l₂, ¬ pyStartsWith u.hash p = true) →
      find_task_by_hash_prefix tasks p = .unique t) ∧
    (tasks.filter (fun u => pyStartsWith u.hash p) = [a, b] →
      find_task_by_hash_prefix tasks p = .ambiguous [a, b]) ∧
    (∀ u : PTask, pyStartsWith u.hash "" = true) ∧
    (tasks.filter (fun u => pyStartsWith u.hash "") = tasks) ∧
    ((∀ u ∈ tasks, u.hash.length = 6) → 6 < p.length →
      find_task_by_hash_prefix tasks p = .notFound) := by
  refine ⟨rfl, ?_, ?_, fun u => by simp [pyStartsWith], ?_, ?_⟩
  · rintro rfl rfl h3
    have hl₁ : l₁.filter (fun u => pyStartsWith u.hash t.hash) = [] :=
      List.filter_eq_nil_iff.mpr fun u hu =>
        h3 u (List.mem_append_left _ hu)
    have hl₂ : l₂.filter (fun u => pyStartsWith u.hash t.hash) = [] :=
      List.filter_eq_nil_iff.mpr fun u hu =>
        h3 u (List.mem_append_right _ hu)
    have ht : pyStartsWith t.hash t.hash = true :=
      List.isPrefixOf_iff_prefix.mpr (List.prefix_refl _)
    simp only [ find_task_by_hash_prefix, List.filter_append, hl₁,
      List.filter_cons, ht, hl₂]
    rfl
  · intro h
    simp only [ find_task_by_hash_prefix, h]
  · exact List.filter_eq_self.mpr fun u _ => by simp [pyStartsWith]
  · intro hlen hp
    have hnil : tasks.filter (fun u => pyStartsWith u.hash p) = [] := by
      refine List.filter_eq_nil_iff.mpr fun u hu hpre => ?_
      have hpfx : p.data <+: u.hash.data := List.isPrefixOf_iff_prefix.mp hpre
      have h1 := hpfx.length_le
      have h2 := hlen u hu
      have e1 : p.length = p.data.length := rfl
      have e2 : u.hash.length = u.hash.data.length := rfl
      omega
    simp only [ find_task_by_hash_prefix, hnil]

/-- C2 witness: a full-hash prefix resolves uniquely, a shared 3-character
prefix is ambiguous with exactly the two sharers, and a 7-character prefix
finds nothing among 6-character hashes. -/
theorem find_task_by_hash_prefix_spec_witness :
    find_task_by_hash_prefix [⟨"123456", "a", "b", "c", 10, 0⟩] "123456" =
      .unique ⟨"123456", "a", "b", "c", 10, 0⟩ ∧
    find_task_by_hash_prefix
        [⟨"123456", "a", "b", "c", 10, 0⟩, ⟨"123999", "d", "e", "f", 5, 1⟩] "123" =
      .ambiguous [⟨"123456", "a", "b", "c", 10, 0⟩, ⟨"123999", "d", "e", "f", 5, 1⟩] ∧
    find_task_by_hash_prefix [⟨"123456", "a", "b", "c", 10, 0⟩] "1234567" = .notFound := by
  refine ⟨?_, ?_, ?_⟩
  · exact ( find_task_by_hash_prefix_spec "123456" [⟨"123456", "a", "b", "c", 10, 0⟩]
      [] [] ⟨"123456", "a", "b", "c", 10, 0⟩ ⟨"123456", "a", "b", "c", 10, 0⟩
      ⟨"123456", "a", "b", "c", 10, 0⟩).2.1 (by decide) (by decide) (by decide)
  · exact ( find_task_by_hash_prefix_spec "123"
      [⟨"123456", "a", "b", "c", 10, 0⟩, ⟨"123999", "d", "e", "f", 5, 1⟩] [] []
      ⟨"123456", "a", "b", "c", 10, 0⟩ ⟨"123456", "a", "b", "c", 10, 0⟩
      ⟨"123999", "d", "e", "f", 5, 1⟩).2.2.1 (by decide)
  · exact ( find_task_by_hash_prefix_spec "1234567" [⟨"123456", "a", "b", "c", 10, 0⟩]
      [] [] ⟨"123456", "a", "b", "c", 10, 0⟩ ⟨"123456", "a", "b", "c", 10, 0⟩
      ⟨"123456", "a", "b", "c", 10, 0⟩).2.2.2.2.2 (by decide) (by decide)

/-- C3: applying a progress delta clamps `current + delta` into `[0, total]`,
silently, for any integer delta; at the bounds clamping is idempotent: from
`current = total` any positive delta keeps `total`, and from `current = 0`
any negative delta keeps `0`. -/
theorem apply_progress_change_spec (task : PTask) (delta : Int)
    (h : 0 ≤ task.total_digit) :
    (apply_progress_change task delta).current_progress =
      max 0 (min (task.current_progress + delta) task.total_digit) ∧
    (task.current_progress = task.total_digit → 0 < delta →
      (apply_progress_change task delta).current_progress = task.total_digit) ∧
    (task.current_progress = 0 → delta < 0 →
      (apply_progress_change task delta).current_progress = 0) := by
  refine ⟨?_, fun h1 h2 => ?_, fun h1 h2 => ?_⟩ <;>
    (simp only [apply_progress_change]; split_ifs <;> omega)

/-- C3 witness: with `total = 10`, a delta of `-5` from `current = 3` clamps
to 0; from `current = 10` a delta of `+4` stays at 10. -/
theorem apply_progress_change_spec_witness :
    (apply_progress_change ⟨"h", "t", "g", "n", 10, 3⟩ (-5)).current_progress =
      max 0 (min (3 + (-5)) 10) ∧
    (apply_progress_change ⟨"h", "t", "g", "n", 10, 10⟩ 4).current_progress = 10 :=
  ⟨(apply_progress_change_spec ⟨"h", "t", "g", "n", 10, 3⟩ (-5) (by decide)).1,
   (apply_progress_change_spec ⟨"h", "t", "g", "n", 10, 10⟩ 4 (by decide)).2.1
     rfl (by decide)⟩

/-- One insert attempt preserves distinctness of the stored hashes. -/
lemma handle_insert_task_nodup (tasks : List PTask) (fs : FileState PTask)
    (ty tg nm dg : String) (hnd : (tasks.map PTask.hash).Nodup) :
    ((handle_insert_task tasks fs ty tg nm dg).tasks.map PTask.hash).Nodup := by
  simp only [handle_insert_task]
  split
  · exact hnd
  · split
    · exact hnd
    · split_ifs with h1 h2
      · exact hnd
      · exact hnd
      · rw [List.map_append, List.nodup_append]
        refine ⟨hnd, by simp, ?_⟩
        intro x hx hx'
        simp only [List.map_cons, List.map_nil, List.mem_singleton] at hx'
        subst hx'
        obtain ⟨u, hu, hu2⟩ := List.mem_map.mp hx
        rw [Bool.not_eq_true] at h2
        have h3 := List.any_eq_false.mp h2 u hu
        simp only [decide_eq_true_eq] at h3
        exact h3 hu2

/-- Iterated inserts preserve distinctness of the stored hashes. -/
lemma insert_sequence_nodup (inputs : List (String × String × String × String))
    (tasks : List PTask) (hnd : (tasks.map PTask.hash).Nodup) :
    ((insert_sequence tasks inputs).map PTask.hash).Nodup := by
  induction inputs generalizing tasks with
  | nil => simpa [insert_sequence] using hnd
  | cons q qs ih =>
    simp only [insert_sequence, List.foldl_cons]
    exact ih _ (handle_insert_task_nodup _ _ _ _ _ _ hnd)

/-- C4: with non-empty (stripped) fields, insert leaves everything unchanged
on a non-integer or non-positive total and on a hash collision (reporting the
colliding hash); on success it appends the new task with `current = 0` at the
end and persists the list; and one insert — hence any sequence of inserts —
preserves the no-two-tasks-share-a-hash invariant. -/
theorem handle_insert_task_spec (tasks : List PTask) (fs : FileState PTask)
    (ty tg nm dg : String) (k : Int)
    (hty : pyStrip ty ≠ "") (htg : pyStrip tg ≠ "") (hnm : pyStrip nm ≠ "") :
    (pyParseInt (pyStrip dg) = none → pyStrip dg ≠ "" →
      handle_insert_task tasks fs ty tg nm dg = ⟨tasks, fs, .errTotalNotInteger⟩) ∧
    (pyParseInt (pyStrip dg) = some k → k ≤ 0 →
      handle_insert_task tasks fs ty tg nm dg = ⟨tasks, fs, .errTotalNotPositive⟩) ∧
    (pyParseInt (pyStrip dg) = some k → 0 < k →
      tasks.any (fun u =>
        u.hash = generate_task_hash (pyStrip ty) (pyStrip tg) (pyStrip nm)) = true →
      handle_insert_task tasks fs ty tg nm dg =
        ⟨tasks, fs,
          .warnDuplicate (generate_task_hash (pyStrip ty) (pyStrip tg) (pyStrip nm))⟩) ∧
    (pyParseInt (pyStrip dg) = some k → 0 < k →
      tasks.any (fun u =>
        u.hash = generate_task_hash (pyStrip ty) (pyStrip tg) (pyStrip nm)) = false →
      handle_insert_task tasks fs ty tg nm dg =
        ⟨tasks ++ [⟨generate_task_hash (pyStrip ty) (pyStrip tg) (pyStrip nm),
            pyStrip ty, pyStrip tg, pyStrip nm, k, 0⟩],
          save_tasks (tasks ++ [⟨generate_task_hash (pyStrip ty) (pyStrip tg) (pyStrip nm),
            pyStrip ty, pyStrip tg, pyStrip nm, k, 0⟩]),
          .taskAdded (pyStrip nm)
            (generate_task_hash (pyStrip ty) (pyStrip tg) (pyStrip nm))⟩) ∧
    ((tasks.map PTask.hash).Nodup →
      ((handle_insert_task tasks fs ty tg nm dg).tasks.map PTask.hash).Nodup) ∧
    (∀ inputs : List (String × String × String × String),
      (tasks.map PTask.hash).Nodup →
      ((insert_sequence tasks inputs).map PTask.hash).Nodup) := by
  refine ⟨fun hp hne => ?_, fun hp hk => ?_, fun hp hk hdup => ?_, fun hp hk hdup => ?_,
    handle_insert_task_nodup tasks fs ty tg nm dg,
    fun inputs hnd => insert_sequence_nodup inputs tasks hnd⟩
  · simp [handle_insert_task, hty, htg, hnm, hne, hp]
  · have hne : pyStrip dg ≠ "" := by
      intro he
      have h0 : pyParseInt "" = none := rfl
      rw [he, h0] at hp
      cases hp
    simp [handle_insert_task, hty, htg, hnm, hne, hp, hk]
  · have hne : pyStrip dg ≠ "" := by
      intro he
      have h0 : pyParseInt "" = none := rfl
      rw [he, h0] at hp
      cases hp
    simp [handle_insert_task, hty, htg, hnm, hne, hp, hdup, not_le.mpr hk]
  · have hne : pyStrip dg ≠ "" := by
      intro he
      have h0 : pyParseInt "" = none := rfl
      rw [he, h0] at hp
      cases hp
    simp [handle_insert_task, hty, htg, hnm, hne, hp, hdup, not_le.mpr hk]

set_option maxRecDepth 200000 in
/-- C4 witness: inserting ("work", "dev", "report", total 100) into an empty
list appends hash 519427 with `current = 0` and persists; re-inserting the
same descriptor is rejected with that colliding hash and changes nothing. -/
theorem handle_insert_task_spec_witness :
    handle_insert_task [] (.wellFormed []) " work " "dev" "report" "100" =
      ⟨[⟨"519427", "work", "dev", "report", 100, 0⟩],
        .wellFormed [⟨"519427", "work", "dev", "report", 100, 0⟩],
        .taskAdded "report" "519427"⟩ ∧
    handle_insert_task [⟨"519427", "work", "dev", "report", 100, 0⟩]
        (.wellFormed []) "work" "dev" "report" "5" =
      ⟨[⟨"519427", "work", "dev", "report", 100, 0⟩], .wellFormed [],
        .warnDuplicate "519427"⟩ := by
  constructor
  · exact ((handle_insert_task_spec [] (.wellFormed []) " work " "dev" "report" "100"
      100 (by decide) (by decide) (by decide)).2.2.2.1 (by decide) (by decide)
      (by decide)).trans (by decide)
  · exact ((handle_insert_task_spec [⟨"519427", "work", "dev", "report", 100, 0⟩]
      (.wellFormed []) "work" "dev" "report" "5" 5 (by decide) (by decide)
      (by decide)).2.2.1 (by decide) (by decide) (by decide)).trans (by decide)

/-- C5: with a valid descriptor and the stopwatch stopped, manual entry
parses each timestamp field independently against the ordered two-format
list, first success per field; if either field fails both formats, or
`start >= end` (equality included), it is a user input error that appends no
record and mutates no state; on success it appends exactly one record whose
duration is the seconds between the two parsed timestamps (rounded to 3
decimals), and `"2023-10-27 09:00"`/`"2023-10-27 10:30"` yields 5400.0. -/
theorem add_manual_entry_spec (st : CaptureState) (fs : FileState TimeRecord)
    (a b : String) (sd ed : PyDateTime)
    (hv : is_task_info_valid st.current_task_info = true)
    (hr : st.is_stopwatch_running = false) :
    (∀ (s : String) (dt : PyDateTime), strptimeFmt1 s.data = some dt →
      parse_manual_timestamp s = some dt) ∧
    (∀ s : String, strptimeFmt1 s.data = none →
      parse_manual_timestamp s = strptimeFmt2 s.data) ∧
    (parse_manual_timestamp (pyStrip a) = none ∨
        parse_manual_timestamp (pyStrip b) = none →
      add_manual_entry st fs a b = (st, fs, .errTimeFormat)) ∧
    (parse_manual_timestamp (pyStrip a) = some sd →
      parse_manual_timestamp (pyStrip b) = some ed → pyDtLt sd ed = false →
      add_manual_entry st fs a b = (st, fs, .errStartNotBeforeEnd)) ∧
    (parse_manual_timestamp (pyStrip a) = some sd →
      parse_manual_timestamp (pyStrip b) = some ed → pyDtLt sd ed = true →
      add_manual_entry st fs a b =
        (st, save_tasks ((load_tasks fs).1 ++
          [⟨st.current_task_info.type, st.current_task_info.tag,
            st.current_task_info.name, (dtToSecs sd : ℚ), (dtToSecs ed : ℚ),
            pyRound3 ((((dtToSecs ed : ℤ) - (dtToSecs sd : ℤ) : ℤ) : ℚ))⟩]),
          .manualAdded st.current_task_info.name)) ∧
    add_manual_entry ⟨⟨"w", "", ""⟩, false, none, none⟩ (.wellFormed [])
        "2023-10-27 09:00" "2023-10-27 10:30" =
      (⟨⟨"w", "", ""⟩, false, none, none⟩,
        .wellFormed [⟨"w", "", "", 63833994000, 63833999400, 5400⟩],
        .manualAdded "") := by
  refine ⟨fun s dt h1 => ?_, fun s h1 => ?_, fun hor => ?_,
    fun hpa hpb hlt => ?_, fun hpa hpb hlt => ?_, ?_⟩
  · simp [parse_manual_timestamp, h1]
  · simp [parse_manual_timestamp, h1]
  · rcases hor with hpa | hpb
    · simp [add_manual_entry, hv, hr, hpa]
    · cases hpa : parse_manual_timestamp (pyStrip a) <;>
        simp [add_manual_entry, hv, hr, hpa, hpb]
  · simp [add_manual_entry, hv, hr, hpa, hpb, hlt]
  · simp [add_manual_entry, hv, hr, hpa, hpb, hlt]
  · have hsa : pyStrip "2023-10-27 09:00" = "2023-10-27 09:00" := by decide
    have hsb : pyStrip "2023-10-27 10:30" = "2023-10-27 10:30" := by decide
    have hpa : parse_manual_timestamp "2023-10-27 09:00" =
        some ⟨2023, 10, 27, 9, 0, 0⟩ := by decide
    have hpb : parse_manual_timestamp "2023-10-27 10:30" =
        some ⟨2023, 10, 27, 10, 30, 0⟩ := by decide
    have hlt : pyDtLt ⟨2023, 10, 27, 9, 0, 0⟩ ⟨2023, 10, 27, 10, 30, 0⟩ = true := by
      decide
    have hvw : is_task_info_valid ⟨"w", "", ""⟩ = true := by decide
    have hd1 : dtToSecs ⟨2023, 10, 27, 9, 0, 0⟩ = 63833994000 := by decide
    have hd2 : dtToSecs ⟨2023, 10, 27, 10, 30, 0⟩ = 63833999400 := by decide
    simp only [add_manual_entry, hsa, hsb, hpa, hpb, hlt, hvw, hd1, hd2]
    norm_num [pyRound3, pyRoundHalfEven, save_tasks, load_tasks]

/-- C5 witness: an unparseable field is rejected; `start == end` is rejected;
start after end is rejected; and a space-padded day (`strptime`'s `%d`
accepts `" 5"`) parses and emits a record exactly as CPython does. -/
theorem add_manual_entry_spec_witness :
    add_manual_entry ⟨⟨"w", "", ""⟩, false, none, none⟩ (.wellFormed [])
        "oops" "2023-10-27 10:30" =
      (⟨⟨"w", "", ""⟩, false, none, none⟩, .wellFormed [], .errTimeFormat) ∧
    add_manual_entry ⟨⟨"w", "", ""⟩, false, none, none⟩ (.wellFormed [])
        "2023-10-27 09:00" "2023-10-27 09:00" =
      (⟨⟨"w", "", ""⟩, false, none, none⟩, .wellFormed [], .errStartNotBeforeEnd) ∧
    add_manual_entry ⟨⟨"w", "", ""⟩, false, none, none⟩ (.wellFormed [])
        "2023-10-27 10:30" "2023-10-27 09:00" =
      (⟨⟨"w", "", ""⟩, false, none, none⟩, .wellFormed [], .errStartNotBeforeEnd) ∧
    parse_manual_timestamp "2023-10- 5 09:00" = some ⟨2023, 10, 5, 9, 0, 0⟩ ∧
    add_manual_entry ⟨⟨"w", "", ""⟩, false, none, none⟩ (.wellFormed [])
        "2023-10- 5 09:00" "2023-10- 5 10:30" =
      (⟨⟨"w", "", ""⟩, false, none, none⟩,
        save_tasks ((load_tasks (.wellFormed ([] : List TimeRecord))).1 ++
          [⟨"w", "", "", (dtToSecs ⟨2023, 10, 5, 9, 0, 0⟩ : ℚ),
            (dtToSecs ⟨2023, 10, 5, 10, 30, 0⟩ : ℚ),
            pyRound3 ((((dtToSecs ⟨2023, 10, 5, 10, 30, 0⟩ : ℤ) -
              (dtToSecs ⟨2023, 10, 5, 9, 0, 0⟩ : ℤ) : ℤ) : ℚ))⟩]),
        .manualAdded "") := by
  refine ⟨?_, ?_, ?_, by decide, ?_⟩
  · exact (add_manual_entry_spec ⟨⟨"w", "", ""⟩, false, none, none⟩ (.wellFormed [])
      "oops" "2023-10-27 10:30" ⟨2023, 1, 1, 0, 0, 0⟩ ⟨2023, 1, 1, 0, 0, 0⟩
      (by decide) (by decide)).2.2.1 (Or.inl (by decide))
  · exact (add_manual_entry_spec ⟨⟨"w", "", ""⟩, false, none, none⟩ (.wellFormed [])
      "2023-10-27 09:00" "2023-10-27 09:00" ⟨2023, 10, 27, 9, 0, 0⟩
      ⟨2023, 10, 27, 9, 0, 0⟩ (by decide) (by decide)).2.2.2.1
      (by decide) (by decide) (by decide)
  · exact (add_manual_entry_spec ⟨⟨"w", "", ""⟩, false, none, none⟩ (.wellFormed [])
      "2023-10-27 10:30" "2023-10-27 09:00" ⟨2023, 10, 27, 10, 30, 0⟩
      ⟨2023, 10, 27, 9, 0, 0⟩ (by decide) (by decide)).2.2.2.1
      (by decide) (by decide) (by decide)
  · exact (add_manual_entry_spec ⟨⟨"w", "", ""⟩, false, none, none⟩ (.wellFormed [])
      "2023-10- 5 09:00" "2023-10- 5 10:30" ⟨2023, 10, 5, 9, 0, 0⟩
      ⟨2023, 10, 5, 10, 30, 0⟩ (by decide) (by decide)).2.2.2.2.1
      (by decide) (by decide) (by decide)

/-- C6 counterexample: pressing the stopwatch key (`s`, the only start
affordance) while the stopwatch is RUNNING is not a rejected no-op: it stops
the watch and emits a TimeRecord — the persisted file grows. -/
theorem toggle_while_running_cex :
    handle_stopwatch_toggle ⟨⟨"w", "", ""⟩, true, some 100, none⟩ 160
        (.wellFormed []) =
      some (⟨⟨"w", "", ""⟩, false, none, some 60⟩,
        .wellFormed [⟨"w", "", "", 100, 160, 60⟩], .stopwatchStopped "") ∧
    FileState.wellFormed [(⟨"w", "", "", 100, 160, 60⟩ : TimeRecord)] ≠
      .wellFormed [] := by
  constructor
  · simp only [handle_stopwatch_toggle]
    norm_num [pyRound3, pyRoundHalfEven, load_tasks, save_tasks]
  · simp

/-- C6 (amended): the descriptor is invalid exactly when all three fields are
empty (any-field-non-empty policy); from STOPPED with an invalid descriptor
the stopwatch key is a no-op with a user-visible error and no record; a valid
start from STOPPED records `start_time = now` and moves to RUNNING without
emitting; and from RUNNING the key performs a stop — emitting exactly one
record — rather than a rejected second start. -/
theorem handle_stopwatch_toggle_spec (st : CaptureState) (now t0 : ℚ)
    (fs : FileState TimeRecord) :
    (∀ i : TaskInfo,
      is_task_info_valid i = false ↔ (i.type = "" ∧ i.tag = "" ∧ i.name = "")) ∧
    (st.is_stopwatch_running = false →
      is_task_info_valid st.current_task_info = false →
      handle_stopwatch_toggle st now fs = some (st, fs, .taskInfoEmptyUseI)) ∧
    (st.is_stopwatch_running = false →
      is_task_info_valid st.current_task_info = true →
      handle_stopwatch_toggle st now fs =
        some ({ st with
                is_stopwatch_running := true,
                stopwatch_start_time := some now }, fs, .stopwatchStarted)) ∧
    (st.is_stopwatch_running = true → st.stopwatch_start_time = some t0 →
      handle_stopwatch_toggle st now fs =
        some ({ st with
                is_stopwatch_running := false,
                stopwatch_start_time := none,
                last_saved_duration := some (now - t0) },
          save_tasks ((load_tasks fs).1 ++
            [⟨st.current_task_info.type, st.current_task_info.tag,
              st.current_task_info.name, now - (now - t0), now,
              pyRound3 (now - t0)⟩]),
          .stopwatchStopped st.current_task_info.name)) := by
  refine ⟨fun i => ?_, fun h1 h2 => ?_, fun h1 h2 => ?_, fun h1 h2 => ?_⟩
  · simp [is_task_info_valid, String.isEmpty_iff, and_assoc]
  · simp [handle_stopwatch_toggle, h1, h2]
  · simp [handle_stopwatch_toggle, h1, h2]
  · simp [handle_stopwatch_toggle, h1, h2]

/-- C6 witness: a stopped session with an empty descriptor rejects the start
unchanged; with `type = "w"` a start at `now = 50` begins running with
`start_time = 50` and an untouched file. -/
theorem handle_stopwatch_toggle_spec_witness :
    handle_stopwatch_toggle ⟨⟨"", "", ""⟩, false, none, none⟩ 50 (.wellFormed []) =
      some (⟨⟨"", "", ""⟩, false, none, none⟩, .wellFormed [], .taskInfoEmptyUseI) ∧
    handle_stopwatch_toggle ⟨⟨"w", "", ""⟩, false, none, none⟩ 50 (.wellFormed []) =
      some (⟨⟨"w", "", ""⟩, true, some 50, none⟩, .wellFormed [], .stopwatchStarted) := by
  constructor
  · exact (handle_stopwatch_toggle_spec ⟨⟨"", "", ""⟩, false, none, none⟩ 50 0
      (.wellFormed [])).2.1 rfl (by decide)
  · exact (handle_stopwatch_toggle_spec ⟨⟨"w", "", ""⟩, false, none, none⟩ 50 0
      (.wellFormed [])).2.2.1 rfl (by decide)

/-- Round-half-even of a non-negative rational is non-negative. -/
lemma pyRoundHalfEven_nonneg {x : ℚ} (hx : 0 ≤ x) : 0 ≤ pyRoundHalfEven x := by
  have hf : (0 : ℤ) ≤ ⌊x⌋ := Int.le_floor.mpr (by exact_mod_cast hx)
  simp only [pyRoundHalfEven]
  split_ifs <;> omega

/-- Rounding to binary64 preserves non-negativity. -/
lemma roundDouble_nonneg {x : ℚ} (hx : 0 ≤ x) : 0 ≤ roundDouble x := by
  simp only [roundDouble]
  split_ifs
  all_goals first
    | exact le_rfl
    | exact absurd ‹x < 0› (not_lt.mpr hx)
    | (rw [one_mul]
       exact mul_nonneg
         (by exact_mod_cast pyRoundHalfEven_nonneg (by positivity))
         (zpow_pos (by norm_num : (0 : ℚ) < 2) _).le)

/-- The float-pipeline percentage is non-negative for `0 ≤ current ≤ total`. -/
lemma float_percentage_nonneg {c t : Int} (hc : 0 ≤ c) (hct : c ≤ t) :
    0 ≤ float_percentage c t := by
  unfold float_percentage
  split
  · exact le_rfl
  · rename_i ht
    have ht0 : (0 : ℚ) < (t : ℚ) := by exact_mod_cast (show (0 : ℤ) < t by omega)
    have hcq : (0 : ℚ) ≤ (c : ℚ) := by exact_mod_cast hc
    exact roundDouble_nonneg (mul_nonneg (roundDouble_nonneg (by positivity)) (by norm_num))

/-- The float-pipeline filled length is non-negative for `0 ≤ current ≤ total`. -/
lemma float_filled_length_nonneg (w : Nat) {c t : Int} (hc : 0 ≤ c) (hct : c ≤ t) :
    0 ≤ float_filled_length c t w := by
  have htr : (0 : ℚ) ≤ ((spec_track_width w : Int) : ℚ) := by
    have h10 : (10 : Int) ≤ spec_track_width w := le_max_right _ _
    exact_mod_cast (show (0 : ℤ) ≤ spec_track_width w by omega)
  have h3 := roundDouble_nonneg
    (mul_nonneg (roundDouble_nonneg htr) (float_percentage_nonneg hc hct))
  have h4 := roundDouble_nonneg (div_nonneg h3 (by norm_num : (0 : ℚ) ≤ 100))
  unfold float_filled_length
  exact Int.le_floor.mpr (by exact_mod_cast h4)

/-- The Python bar-building sequence (fill, conditional marker, truncate,
pad) equals the spec's bar-track shape for any `0 ≤ filled`. -/
lemma bar_construction (k f : Int) (h0 : 0 ≤ f) :
    (if f < k then List.replicate f.toNat '=' ++ ['>']
     else List.replicate f.toNat '=').take k.toNat ++
      List.replicate (k.toNat -
        ((if f < k then List.replicate f.toNat '=' ++ ['>']
          else List.replicate f.toNat '=').take k.toNat).length) '-' =
    spec_bar_track k f := by
  by_cases hfk : f < k
  · have hfn : f.toNat + 1 ≤ k.toNat := by omega
    rw [if_pos hfk, spec_bar_track, if_pos hfk,
      List.take_of_length_le (by simp; omega)]
    have hcount : (k - f - 1).toNat = k.toNat - (f.toNat + 1) := by omega
    simp [hcount]
  · rw [if_neg hfk, spec_bar_track, if_neg hfk, List.take_replicate]
    have hmin : min k.toNat f.toNat = k.toNat := by omega
    simp [hmin]

/-- The formatter's output characterized over the float-pipeline values. -/
lemma draw_progress_bar_eq {α : Type} (x : α) (c t : Int) (w : Nat)
    (hf0 : 0 ≤ float_filled_length c t w) :
    draw_progress_bar x c t w =
      ⟨("[" ++ String.mk (spec_bar_track (spec_track_width w)
          (float_filled_length c t w)) ++ "] " ++
        (pyIntRepr c ++ "/" ++ pyIntRepr t ++ " (" ++
          pyIntRepr (pyRoundHalfEven (float_percentage c t)) ++ "%)")).data.take w⟩ := by
  have e2 : (if (w : Int) - 25 < 10 then (10 : Int) else (w : Int) - 25) =
      spec_track_width w := by
    unfold spec_track_width
    rcases le_or_lt ((w : Int) - 25) 10 with h | h
    · rw [max_eq_right h]
      split <;> omega
    · rw [max_eq_left h.le]
      split <;> omega
  have e1 : (if t = 0 then (0 : ℚ)
      else roundDouble (roundDouble ((c : ℚ) / (t : ℚ)) * 100)) =
      float_percentage c t := rfl
  have e3 : ⌊roundDouble (roundDouble (roundDouble ((spec_track_width w : Int) : ℚ) *
      float_percentage c t) / 100)⌋ = float_filled_length c t w := rfl
  simp only [draw_progress_bar, e2, e1, e3]
  rw [bar_construction _ _ hf0]

/-- C7 counterexample: the exact-arithmetic fill formula is false of the
program. At `(current, total, width) = (1, 3, 40)` the float pipeline fills
`math.floor(15 * ((1/3)*100) / 100) = 4` cells (the doubles multiply out just
below 5) while the exact formula gives `⌊15·(100/3)/100⌋ = 5`, so the
rendered bar differs from the exact-formula rendering; and at `(23, 40)` the
program shows 57% where exact half-even rounding of 57.5 gives 58. -/
theorem draw_progress_bar_exact_formula_cex :
    draw_progress_bar () 1 3 40 = "[====>----------] 1/3 (33%)" ∧
    spec_filled_length 1 3 40 = 5 ∧
    draw_progress_bar () 1 3 40 ≠
      ⟨("[" ++ String.mk (spec_bar_track (spec_track_width 40)
          (spec_filled_length 1 3 40)) ++ "] " ++
        (pyIntRepr 1 ++ "/" ++ pyIntRepr 3 ++ " (" ++
          pyIntRepr (pyRoundHalfEven (spec_percentage 1 3)) ++ "%)")).data.take 40⟩ ∧
    draw_progress_bar () 23 40 40 = "[========>------] 23/40 (57%)" ∧
    pyRoundHalfEven (spec_percentage 23 40) = 58 := by
  have ht : spec_track_width 40 = 15 := by norm_num [spec_track_width]
  have hrd3 : roundDouble ((1 : ℚ) / 3) = 6004799503160661 / 18014398509481984 := by
    norm_num [roundDouble, qlog2, qstep, pyRoundHalfEven, abs_of_nonneg]
  have hpct13 : float_percentage 1 3 = 2345624805922133 / 70368744177664 := by
    unfold float_percentage
    norm_num [hrd3, roundDouble, qlog2, qstep, pyRoundHalfEven, abs_of_nonneg]
  have hfill13 : float_filled_length 1 3 40 = 4 := by
    unfold float_filled_length
    rw [ht, hpct13]
    norm_num [roundDouble, qlog2, qstep, pyRoundHalfEven, abs_of_nonneg]
  have htext13 : pyRoundHalfEven (float_percentage 1 3) = 33 := by
    rw [hpct13]
    norm_num [pyRoundHalfEven]
  have hdraw13 : draw_progress_bar () 1 3 40 = "[====>----------] 1/3 (33%)" := by
    rw [draw_progress_bar_eq () 1 3 40 (by rw [hfill13]; norm_num),
      ht, hfill13, htext13]
    decide
  have hspec13 : spec_filled_length 1 3 40 = 5 := by
    norm_num [spec_filled_length, spec_percentage, spec_track_width]
  have hrd2340 : roundDouble ((23 : ℚ) / 40) = 2589569785738035 / 4503599627370496 := by
    norm_num [roundDouble, qlog2, qstep, pyRoundHalfEven, abs_of_nonneg]
  have hpct23 : float_percentage 23 40 = 8092405580431359 / 140737488355328 := by
    unfold float_percentage
    norm_num [hrd2340, roundDouble, qlog2, qstep, pyRoundHalfEven, abs_of_nonneg]
  have hfill23 : float_filled_length 23 40 40 = 8 := by
    unfold float_filled_length
    rw [ht, hpct23]
    norm_num [roundDouble, qlog2, qstep, pyRoundHalfEven, abs_of_nonneg]
  have htext23 : pyRoundHalfEven (float_percentage 23 40) = 57 := by
    rw [hpct23]
    norm_num [pyRoundHalfEven]
  have hdraw23 : draw_progress_bar () 23 40 40 = "[========>------] 23/40 (57%)" := by
    rw [draw_progress_bar_eq () 23 40 40 (by rw [hfill23]; norm_num),
      ht, hfill23, htext23]
    decide
  refine ⟨hdraw13, hspec13, ?_, hdraw23, by norm_num [pyRoundHalfEven, spec_percentage]⟩
  rw [hdraw13, ht, hspec13]
  have h33 : pyRoundHalfEven (spec_percentage 1 3) = 33 := by
    norm_num [pyRoundHalfEven, spec_percentage]
  rw [h33]
  decide

/-- C7 (amended): the bar formatter is pure in its ignored screen argument;
the percentage is 0 at `total = 0` (no division); the track is the width
minus the 25-column footer floored at 10; for `0 ≤ current ≤ total` the
output is the spec composition with percentage and filled length computed in
IEEE-754 double precision exactly as Python evaluates them (each operation
correctly rounded) — which can differ by one cell or one percent from exact
arithmetic — with a single `>` marker exactly when the bar is not full, `-`
padding, truncation to the display width, and never exceeding that width. -/
theorem draw_progress_bar_spec {α β : Type} (x : α) (y : β) (c t : Int)
    (w : Nat) (hc : 0 ≤ c) (hct : c ≤ t) :
    draw_progress_bar x c t w = draw_progress_bar y c t w ∧
    float_percentage c 0 = 0 ∧
    spec_track_width w = max ((w : Int) - 25) 10 ∧
    draw_progress_bar x c t w =
      ⟨("[" ++ String.mk (spec_bar_track (spec_track_width w)
          (float_filled_length c t w)) ++ "] " ++
        (pyIntRepr c ++ "/" ++ pyIntRepr t ++ " (" ++
          pyIntRepr (pyRoundHalfEven (float_percentage c t)) ++ "%)")).data.take w⟩ ∧
    (float_filled_length c t w < spec_track_width w →
      (spec_bar_track (spec_track_width w)
        (float_filled_length c t w))[(float_filled_length c t w).toNat]? = some '>') ∧
    '>' ∉ spec_bar_track (spec_track_width w) (spec_track_width w) ∧
    (draw_progress_bar x c t w).length ≤ w := by
  refine ⟨rfl, rfl, ?_, draw_progress_bar_eq x c t w (float_filled_length_nonneg w hc hct),
    fun h => ?_, ?_, ?_⟩
  · unfold spec_track_width
    rfl
  · unfold spec_bar_track
    rw [if_pos h]
    rw [List.getElem?_append_right (by simp)]
    simp
  · unfold spec_bar_track
    simp
  · simp only [draw_progress_bar, String.length, List.length_take]
    omega

/-- C7 witness: at `(37, 100, 40)` the formatter is independent of the screen
argument and renders the 15-column track with the marker after 5 filled
cells (here the float pipeline agrees with exact arithmetic); at
`(x, 0, w)` the percentage is 0. -/
theorem draw_progress_bar_spec_witness :
    draw_progress_bar () 37 100 40 = draw_progress_bar "screen" 37 100 40 ∧
    float_percentage 5 0 = 0 ∧
    draw_progress_bar () 37 100 40 = "[=====>---------] 37/100 (37%)" := by
  refine ⟨(draw_progress_bar_spec () "screen" 37 100 40 (by decide) (by decide)).1,
    (draw_progress_bar_spec () "screen" 5 5 40 (by decide) (by decide)).2.1, ?_⟩
  rw [(draw_progress_bar_spec () "screen" 37 100 40 (by decide) (by decide)).2.2.2.1]
  have ht : spec_track_width 40 = 15 := by norm_num [spec_track_width]
  have hrd37 : roundDouble ((37 : ℚ) / 100) = 3332663724254167 / 9007199254740992 := by
    norm_num [roundDouble, qlog2, qstep, pyRoundHalfEven, abs_of_nonneg]
  have hpct37 : float_percentage 37 100 = 37 := by
    unfold float_percentage
    norm_num [hrd37, roundDouble, qlog2, qstep, pyRoundHalfEven, abs_of_nonneg]
  have hfill37 : float_filled_length 37 100 40 = 5 := by
    unfold float_filled_length
    rw [ht, hpct37]
    norm_num [roundDouble, qlog2, qstep, pyRoundHalfEven, abs_of_nonneg]
  have htext37 : pyRoundHalfEven (float_percentage 37 100) = 37 := by
    rw [hpct37]
    norm_num [pyRoundHalfEven]
  rw [ht, hfill37, htext37]
  decide

/-- C8 counterexample: the progress tool's `__main__` runs
`ensure_data_file_exists` before the command loop, so a missing data file is
created (holding an empty list) at startup — before any save has happened —
contradicting "not auto-created until the first save". -/
theorem progress_autocreate_cex :
    progress_main_startup .missing = .wellFormed [] ∧
    FileState.wellFormed ([] : List PTask) ≠ .missing := by
  constructor
  · rfl
  · simp

/-- C8 (amended): load fails soft — a missing file loads as the empty
sequence, an unparseable file loads as the empty sequence with a non-fatal
warning instead of raising, a well-formed file loads as its records — but the
progress tool auto-creates a missing file (as an empty list) at startup via
`ensure_data_file_exists`, before the first save; an existing file is left
untouched. -/
theorem load_tasks_spec (rs : List PTask) (fs : FileState PTask) :
    load_tasks (.missing : FileState PTask) = ([], false) ∧
    load_tasks (.malformed : FileState PTask) = ([], true) ∧
    load_tasks (.wellFormed rs) = (rs, false) ∧
    progress_main_startup .missing = .wellFormed [] ∧
    (fs ≠ .missing → progress_main_startup fs = fs) := by
  refine ⟨rfl, rfl, rfl, rfl, fun h => ?_⟩
  cases fs with
  | missing => exact absurd rfl h
  | malformed => rfl
  | wellFormed rs' => rfl

/-- C8 witness: an existing-but-malformed file is left untouched by startup. -/
theorem load_tasks_spec_witness :
    progress_main_startup .malformed = .malformed :=
  (load_tasks_spec [] .malformed).2.2.2.2 (by simp)

/-- C9: the time tool's loop never exits while the stopwatch runs: `q` while
RUNNING keeps the loop alive with the session state and persisted records
untouched (only a message is shown); `q` from STOPPED exits, also leaving all
state untouched. -/
theorem run_step_quit_spec (st : CaptureState) (fs : FileState TimeRecord) :
    (st.is_stopwatch_running = true → run_step st fs .quit = some (st, fs, false)) ∧
    (st.is_stopwatch_running = false → run_step st fs .quit = some (st, fs, true)) := by
  constructor <;> intro h <;> simp [run_step, h]

/-- C9 witness: quit is refused in a concrete running session and honoured in
the corresponding stopped one, leaving state and file unchanged either way. -/
theorem run_step_quit_spec_witness :
    run_step ⟨⟨"w", "", ""⟩, true, some 100, none⟩ (.wellFormed []) .quit =
      some (⟨⟨"w", "", ""⟩, true, some 100, none⟩, .wellFormed [], false) ∧
    run_step ⟨⟨"w", "", ""⟩, false, none, none⟩ (.wellFormed []) .quit =
      some (⟨⟨"w", "", ""⟩, false, none, none⟩, .wellFormed [], true) :=
  ⟨(run_step_quit_spec ⟨⟨"w", "", ""⟩, true, some 100, none⟩ (.wellFormed [])).1 rfl,
   (run_step_quit_spec ⟨⟨"w", "", ""⟩, false, none, none⟩ (.wellFormed [])).2 rfl⟩

/-- C10: each successful record emission — stopwatch stop or manual entry —
reloads the persisted list, appends exactly one new record at its end, and
saves: the written sequence is the previously persisted one, unchanged and in
order, plus the single new record. -/
theorem record_emission_spec (st : CaptureState) (prior : List TimeRecord)
    (now t0 : ℚ) (a b : String) (sd ed : PyDateTime) :
    (st.is_stopwatch_running = true → st.stopwatch_start_time = some t0 →
      ∃ st' r m, handle_stopwatch_toggle st now (.wellFormed prior) =
        some (st', .wellFormed (prior ++ [r]), m)) ∧
    (is_task_info_valid st.current_task_info = true →
      st.is_stopwatch_running = false →
      parse_manual_timestamp (pyStrip a) = some sd →
      parse_manual_timestamp (pyStrip b) = some ed → pyDtLt sd ed = true →
      ∃ r, add_manual_entry st (.wellFormed prior) a b =
        (st, .wellFormed (prior ++ [r]), .manualAdded st.current_task_info.name)) := by
  constructor
  · intro h1 h2
    refine ⟨{ st with
        is_stopwatch_running := false,
        stopwatch_start_time := none,
        last_saved_duration := some (now - t0) },
      ⟨st.current_task_info.type, st.current_task_info.tag,
        st.current_task_info.name, now - (now - t0), now, pyRound3 (now - t0)⟩,
      .stopwatchStopped st.current_task_info.name, ?_⟩
    simp [handle_stopwatch_toggle, h1, h2, save_tasks, load_tasks]
  · intro hv hr hpa hpb hlt
    refine ⟨⟨st.current_task_info.type, st.current_task_info.tag,
      st.current_task_info.name, (dtToSecs sd : ℚ), (dtToSecs ed : ℚ),
      pyRound3 ((((dtToSecs ed : ℤ) - (dtToSecs sd : ℤ) : ℤ) : ℚ))⟩, ?_⟩
    simp [add_manual_entry, hv, hr, hpa, hpb, hlt, save_tasks, load_tasks]

/-- C10 witness: a concrete stop appends exactly one record after the
existing one; a concrete manual entry does the same. -/
theorem record_emission_spec_witness :
    (∃ st' r m,
      handle_stopwatch_toggle ⟨⟨"w", "", ""⟩, true, some 100, none⟩ 160
        (.wellFormed [⟨"old", "", "", 1, 2, 1⟩]) =
      some (st', .wellFormed ([⟨"old", "", "", 1, 2, 1⟩] ++ [r]), m)) ∧
    (∃ r,
      add_manual_entry ⟨⟨"w", "", ""⟩, false, none, none⟩
        (.wellFormed [⟨"old", "", "", 1, 2, 1⟩]) "2023-10-27 09:00"
        "2023-10-27 10:30" =
      (⟨⟨"w", "", ""⟩, false, none, none⟩,
        .wellFormed ([⟨"old", "", "", 1, 2, 1⟩] ++ [r]), .manualAdded "")) :=
  ⟨(record_emission_spec ⟨⟨"w", "", ""⟩, true, some 100, none⟩
      [⟨"old", "", "", 1, 2, 1⟩] 160 100 "" "" ⟨1, 1, 1, 0, 0, 0⟩
      ⟨1, 1, 1, 0, 0, 0⟩).1 rfl rfl,
   (record_emission_spec ⟨⟨"w", "", ""⟩, false, none, none⟩
      [⟨"old", "", "", 1, 2, 1⟩] 0 0 "2023-10-27 09:00" "2023-10-27 10:30"
      ⟨2023, 10, 27, 9, 0, 0⟩ ⟨2023, 10, 27, 10, 30, 0⟩).2 (by decide) rfl
      (by decide) (by decide) (by decide)⟩

